import Mathlib

/-!
Verification development for the JKhomes repository.

The repository holds one script, `src/create_sow.py`, which assembles a
statement-of-work document through the python-docx library and saves it.
We shallowly embed the document object model the script manipulates
(runs, paragraphs, cells, tables, headings), translate the script's
straight-line construction into a Lean value `sowDocument`, and model the
spec's generic `DocumentBuilder.build(outline, outputPath)` routine, which
the repository does not contain as a reusable function, from the spec's
words.
-/

set_option maxRecDepth 4096

/-- Paragraph alignment values used by the script (`WD_PARAGRAPH_ALIGNMENT.LEFT`). -/
inductive Align where
  | left
deriving Repr, DecidableEq

/-- A text run in the output document: text plus tri-state style flags,
mirroring python-docx where `run.bold` / `run.italic` default to `None`
and are set to `True` by assignments such as `p.add_run(s).bold = True`. -/
structure Run where
  text : String
  bold : Option Bool
  italic : Option Bool
deriving Repr, DecidableEq

/-- A paragraph: an ordered list of runs plus an optional named style,
as created by `document.add_paragraph(text, style=...)`. -/
structure Par where
  runs : List Run
  style : Option String
deriving Repr, DecidableEq

/-- A table cell: a list of paragraphs, as in python-docx `_Cell.paragraphs`. -/
structure Cell where
  paragraphs : List Par
deriving Repr, DecidableEq

/-- A table: declared row/column counts, the grid of cells
(`table.rows[i].cells[j]`), and an optional named style (`table.style`). -/
structure Table where
  nrows : Nat
  ncols : Nat
  cells : List (List Cell)
  style : Option String
deriving Repr, DecidableEq

/-- One body element of the output document, in body order: a heading
(`document.add_heading(text, level)`, with the optional alignment the
script sets on the title), a paragraph, or a table. -/
inductive Elem where
  | heading (text : String) (level : Nat) (align : Option Align)
  | par (p : Par)
  | table (t : Table)
deriving Repr, DecidableEq

/-- A document is its ordered list of body elements. -/
abbrev Document := List Elem

/-- A plain run, as produced by `p.add_run(s)` or `cell.text = s`
(bold and italic left at `None`). -/
def plainRun (s : String) : Run := ⟨s, none, none⟩

/-- A run made bold by `p.add_run(s).bold = True`. -/
def boldRun (s : String) : Run := ⟨s, some true, none⟩

/-- A run made italic by `p.add_run(s).italic = True`. -/
def italicRun (s : String) : Run := ⟨s, none, some true⟩

/-- A plain paragraph, as produced by `document.add_paragraph(text)`. -/
def plainPar (s : String) : Par := ⟨[plainRun s], none⟩

/-- A bullet paragraph, as produced by
`document.add_paragraph(text, style='List Bullet')`. -/
def bulletPar (s : String) : Par := ⟨[plainRun s], some "List Bullet"⟩

/-- Text of a paragraph: the concatenation of its run texts, mirroring
python-docx `Paragraph.text`. -/
def parText (p : Par) : String :=
  match p.runs with
  | [] => ""
  | r :: rs => rs.foldl (fun acc x => acc ++ x.text) r.text

/-- Text of a cell: its paragraph texts joined by newlines, mirroring
python-docx `_Cell.text`. -/
def cellText (c : Cell) : String :=
  match c.paragraphs.map parText with
  | [] => ""
  | t :: ts => ts.foldl (fun acc x => acc ++ "\n" ++ x) t

/-- A freshly created cell: one empty paragraph, no runs. -/
def emptyCell : Cell := ⟨[⟨[], none⟩]⟩

/-- Replace the element at an index of a list, leaving the list unchanged
when the index is out of range. -/
def updateAt (f : α → α) : Nat → List α → List α
  | _, [] => []
  | 0, a :: as => f a :: as
  | n + 1, a :: as => a :: updateAt f n as

/-- Effect of the python-docx assignment `cell.text = s`: the cell's
content is replaced by a single paragraph holding a single plain run. -/
def cellSetText (_c : Cell) (s : String) : Cell := ⟨[⟨[plainRun s], none⟩]⟩

/-- Effect of `cell.paragraphs[0].runs[0].bold = b`. -/
def cellSetFirstRunBold (c : Cell) (b : Bool) : Cell :=
  ⟨updateAt (fun p => ⟨updateAt (fun r => { r with bold := some b }) 0 p.runs, p.style⟩)
    0 c.paragraphs⟩

/-- A freshly created table, as produced by
`document.add_table(rows=r, cols=c)`: an `r × c` grid of empty cells. -/
def mkTable (rows cols : Nat) : Table :=
  ⟨rows, cols, List.replicate rows (List.replicate cols emptyCell), none⟩

/-- Effect of `table.style = s`. -/
def tableSetStyle (t : Table) (s : String) : Table := { t with style := some s }

/-- Effect of `table.rows[i].cells[j].text = s`. -/
def tableSetText (t : Table) (i j : Nat) (s : String) : Table :=
  { t with cells := updateAt (updateAt (fun c => cellSetText c s) j) i t.cells }

/-- Effect of `table.rows[i].cells[j].paragraphs[0].runs[0].bold = b`. -/
def tableSetBold (t : Table) (i j : Nat) (b : Bool) : Table :=
  { t with cells := updateAt (updateAt (fun c => cellSetFirstRunBold c b) j) i t.cells }

/-!
Embedding of `create_document` from `src/create_sow.py`: each table and
paragraph of the script, in source order, followed by the whole document
body `sowDocument`.
-/

/-- The metadata paragraph (lines 13-19): bold labels alternating with
plain values. -/
def metaPar : Par :=
  ⟨[boldRun "Version: ", plainRun "1.0\n",
    boldRun "Date: ", plainRun "January 14, 2026\n",
    boldRun "Author: ", plainRun "Navaneetha Krishnan R"], none⟩

/-- The project-information table (lines 23-42): 3 × 3, header row plus two
contact rows. -/
def infoTable : Table :=
  let t := tableSetStyle (mkTable 3 3) "Table Grid"
  let t := tableSetText t 0 0 "Role"
  let t := tableSetText t 0 1 "Name"
  let t := tableSetText t 0 2 "Email and telephone"
  let t := tableSetText t 1 0 "Client point of contact"
  let t := tableSetText t 1 1 "Benita"
  let t := tableSetText t 1 2 "[Client Email] [Client Phone]"
  let t := tableSetText t 2 0 "Agency point of contact"
  let t := tableSetText t 2 1 "Navaneetha Krishnan R"
  tableSetText t 2 2 "[Agency Email] [Agency Phone]"

/-- The `data` list of the project-summary section (lines 49-57). -/
def summaryData : List (String × String) :=
  [("Start date", "TBD"),
   ("Deadline", "TBD"),
   ("Project overview", "The goal of this project is to build a conversion-focused website for Edu-Explore to clearly present services (Career Counselling, Study Abroad, Training) and drive consultation bookings. We aim to revive the inactive domain edu-xplore.com and implement an automated booking flow."),
   ("Project scope", "In Scope:\n1. Setup of hosting for edu-xplore.com.\n2. Design and development of Landing Page with conversion CTAs.\n3. Integration of booking engine (Calendly/Google Meet) with Calendar sync.\n4. Creation of service pages: Study Abroad (US, UK, Asia, etc.), Career Counselling, MAX ME Training.\n5. Mobile responsive design.\n\nNot In Scope:\n1. Content writing (text to be provided by client).\n2. Purchase of third-party licenses (hosting, paid booking tools)."),
   ("Project timeline", "High-level timeline to be confirmed upon booking tool selection and hosting finalization."),
   ("Project budget", "TBD"),
   ("Risk, constraints, and assumptions", "Constraints: Hosting is currently expired and requires immediate renewal.\nAssumptions: Client has access to GoDaddy account for DNS updates.")]

/-- The project-summary table (lines 46-63): 7 × 2, filled by the loop that
also bolds the first run of every first-column cell. -/
def summaryTable : Table :=
  summaryData.enum.foldl
    (fun t x =>
      tableSetBold (tableSetText (tableSetText t x.1 0 x.2.1) x.1 1 x.2.2) x.1 0 true)
    (tableSetStyle (mkTable 7 2) "Table Grid")

/-- The `phases_list` bullet lines (lines 69-74). -/
def phasesList : List String :=
  ["Phase 1: Mobilization & Infrastructure",
   "Phase 2: Design & User Flow",
   "Phase 3: Development & Integration",
   "Phase 4: Launch & Handover"]

/-- The `m_headers` list of the milestone table (line 86). -/
def mHeaders : List String := ["Milestone", "Description", "Start date", "Due date"]

/-- The `m_data` rows of the milestone table (lines 90-95). -/
def mData : List (String × String × String × String) :=
  [("Phase 1", "Hosting setup & Tool selection", "TBD", "TBD"),
   ("Phase 2", "Wireframes & Design Approval", "TBD", "TBD"),
   ("Phase 3", "Functional Website Build", "TBD", "TBD"),
   ("Phase 4", "Go-Live", "TBD", "TBD")]

/-- The project-milestones table (lines 83-102): 5 × 4, header row filled
from `mHeaders`, body rows from `mData` at row index `i + 1`. -/
def milestoneTable : Table :=
  let t := tableSetStyle (mkTable 5 4) "Table Grid"
  let t := mHeaders.enum.foldl (fun t x => tableSetText t 0 x.1 x.2) t
  mData.enum.foldl
    (fun t x =>
      tableSetText (tableSetText (tableSetText (tableSetText t (x.1 + 1) 0 x.2.1)
        (x.1 + 1) 1 x.2.2.1) (x.1 + 1) 2 x.2.2.2.1) (x.1 + 1) 3 x.2.2.2.2)
    t

/-- The phase-1 deliverables table (lines 110-117). -/
def p1Table : Table :=
  let t := tableSetStyle (mkTable 3 2) "Table Grid"
  let t := tableSetText t 0 0 "Deliverable / task"
  let t := tableSetText t 0 1 "Description"
  let t := tableSetText t 1 0 "Hosting Renewal"
  let t := tableSetText t 1 1 "Assist client in renewing/purchasing hosting for edu-xplore.com."
  let t := tableSetText t 2 0 "Tool Selection"
  tableSetText t 2 1 "Finalize decision between Calendly vs. Google Meet for booking flow."

/-- The phase-2 deliverables table (lines 122-129). -/
def p2Table : Table :=
  let t := tableSetStyle (mkTable 3 2) "Table Grid"
  let t := tableSetText t 0 0 "Deliverable / task"
  let t := tableSetText t 0 1 "Description"
  let t := tableSetText t 1 0 "Sitemap & Flow"
  let t := tableSetText t 1 1 "Define navigation for Study Abroad, Counselling, and Training tabs."
  let t := tableSetText t 2 0 "UI Mockups"
  tableSetText t 2 1 "Create visual mockups for the Landing Page with \"Learn More\", \"Call Now\" CTAs."

/-- The phase-3 deliverables table (lines 134-143): 4 × 2. -/
def p3Table : Table :=
  let t := tableSetStyle (mkTable 4 2) "Table Grid"
  let t := tableSetText t 0 0 "Deliverable / task"
  let t := tableSetText t 0 1 "Description"
  let t := tableSetText t 1 0 "Landing Page Build"
  let t := tableSetText t 1 1 "Develop primary landing page focused on conversion."
  let t := tableSetText t 2 0 "Booking Integration"
  let t := tableSetText t 2 1 "Implement booking logic, calendar sync, and WhatsApp/Email notification triggers."
  let t := tableSetText t 3 0 "Service Pages"
  tableSetText t 3 1 "Build dedicated pages for MAX ME partnership and Country-wise study programs."

/-- The phase-4 deliverables table (lines 148-155). -/
def p4Table : Table :=
  let t := tableSetStyle (mkTable 3 2) "Table Grid"
  let t := tableSetText t 0 0 "Deliverable / task"
  let t := tableSetText t 0 1 "Description"
  let t := tableSetText t 1 0 "Testing"
  let t := tableSetText t 1 1 "Verify mobile responsiveness and booking flow functionality."
  let t := tableSetText t 2 0 "Go-Live"
  tableSetText t 2 1 "Point domain DNS to new hosting and publish site."

/-- The `b_headers` list of the budget table (line 164). -/
def bHeaders : List String := ["Invoice", "Milestone/phase", "Amount", "Due date"]

/-- The `b_data` rows of the budget table (lines 168-173). -/
def bData : List (String × String × String × String) :=
  [("1", "Project Initiation (Upfront)", "TBD", "TBD"),
   ("2", "Design Sign-off", "TBD", "TBD"),
   ("3", "Project Completion", "TBD", "TBD"),
   ("Total", "", "TBD", "")]

/-- The budget table (lines 162-184): 5 × 4, header row from `bHeaders`,
body rows from `bData` at row index `i + 1`, then cells (4,0) and (4,2) of
the Total row bolded. -/
def budgetTable : Table :=
  let t := tableSetStyle (mkTable 5 4) "Table Grid"
  let t := bHeaders.enum.foldl (fun t x => tableSetText t 0 x.1 x.2) t
  let t := bData.enum.foldl
    (fun t x =>
      tableSetText (tableSetText (tableSetText (tableSetText t (x.1 + 1) 0 x.2.1)
        (x.1 + 1) 1 x.2.2.1) (x.1 + 1) 2 x.2.2.2.1) (x.1 + 1) 3 x.2.2.2.2)
    t
  let t := tableSetBold t 4 0 true
  tableSetBold t 4 2 true

/-- The `risks` bullet lines (lines 188-192). -/
def risksList : List String :=
  ["Risks: Delays in hosting renewal may push back the start date.",
   "Constraints: The domain edu-xplore.com is valid until 2027, but the site is currently inactive due to expired hosting.",
   "Assumptions: Edu-Explore will provide all necessary logos, images, and text content for the service pages."]

/-- The `reqs` bullet lines (lines 202-205). -/
def reqsList : List String :=
  ["Access: Developer requires access to the GoDaddy domain management console.",
   "Certification Info: Client to provide specific details regarding the MAX ME Australian certification for the Training page."]

/-- The full document body built by `create_document`, element by element
in the order of the script's calls. -/
def sowDocument : Document :=
  [Elem.heading "Statement of work: Edu-Explore Website Build" 0 (some Align.left),
   Elem.par metaPar,
   Elem.heading "Project information" 1 none,
   Elem.table infoTable,
   Elem.heading "Project summary" 1 none,
   Elem.table summaryTable,
   Elem.heading "Project scope and process" 1 none,
   Elem.par (plainPar "We break the project into 4 key phases to minimize risk through clear checkpoints, reviews, and controls at the beginning and end of a phase.")]
  ++ phasesList.map (fun s => Elem.par (bulletPar s))
  ++ [Elem.heading "Project milestones" 1 none,
      Elem.par ⟨[italicRun "Please see Project Plan for a detailed project schedule."], none⟩,
      Elem.table milestoneTable,
      Elem.heading "Project phases" 1 none,
      Elem.heading "Phase 1: Mobilization & Infrastructure" 2 none,
      Elem.par (plainPar "Phase description: Finalizing the technical foundation and tools required for the build."),
      Elem.table p1Table,
      Elem.heading "Phase 2: Design & User Flow" 2 none,
      Elem.par (plainPar "Phase description: Defining the visual structure and user journey."),
      Elem.table p2Table,
      Elem.heading "Phase 3: Development & Integration" 2 none,
      Elem.par (plainPar "Phase description: Building the actual website pages and connecting functional elements."),
      Elem.table p3Table,
      Elem.heading "Phase 4: Launch & Handover" 2 none,
      Elem.par (plainPar "Phase description: Final testing and deployment to the live server."),
      Elem.table p4Table,
      Elem.heading "Project budget and billing schedule" 1 none,
      Elem.par ⟨[italicRun "If the project budget has been created, list the payments related to the project below."], none⟩,
      Elem.table budgetTable,
      Elem.heading "General risks, constraints, and assumptions" 1 none]
  ++ risksList.map (fun s => Elem.par (bulletPar s))
  ++ [Elem.heading "Change requests" 1 none,
      Elem.par (plainPar "Any changes to the approved scope (e.g., adding payment gateways, new pages not listed, or complex student portals) will be treated as a Change Request. These will be estimated separately and may incur additional costs and timeline extensions."),
      Elem.heading "Other project requirements" 1 none]
  ++ reqsList.map (fun s => Elem.par (bulletPar s))

/-!
The spec's generic `DocumentBuilder`. The repository contains only the
hard-coded instantiation `create_document`; the reusable routine
`build(outline, outputPath)` exists only in the spec, so the definitions
below are modelled from the spec's words (sections 3, 4.1, 6 and 7).
-/

/-- Modelled from the spec: one input text run of a `Paragraph` block,
"text runs, each run carrying text plus optional style flags (bold,
italic)". -/
structure SRun where
  text : String
  bold : Bool
  italic : Bool
deriving Repr, DecidableEq

/-- Modelled from the spec: a `Block`, "a polymorphic variant over"
`Paragraph` (ordered runs), `BulletItem` (a single line with bullet-list
style) and `Table` (a `rows × cols` grid of cells, "each cell holding a
string and an optional bold flag on its first text run"). -/
inductive Block where
  | paragraph (runs : List SRun)
  | bullet (text : String)
  | table (rows cols : Nat) (cells : List (List (String × Bool)))
deriving Repr, DecidableEq

/-- Modelled from the spec: a `Section`, with a title, a nesting level
(0 is the document title) and an ordered sequence of blocks. -/
structure Sect where
  title : String
  level : Nat
  blocks : List Block
deriving Repr, DecidableEq

/-- Modelled from the spec: an `Outline`, an ordered sequence of sections. -/
abbrev Outline := List Sect

/-- Modelled from the spec: the invariant that a table block's declared
row/column counts match the cells populated against it — "a mismatch (too
few/many cells addressed) is a defect". -/
def validBlock : Block → Bool
  | Block.table rows cols cells =>
      cells.length == rows && cells.all (fun row => row.length == cols)
  | _ => true

/-- Modelled from the spec: structural validity of an outline, "outline is
empty, malformed (e.g., a table block whose cell-population references
exceed its declared row/column bounds), or otherwise structurally
invalid". -/
def validOutline (o : Outline) : Bool :=
  !o.isEmpty && o.all (fun s => s.blocks.all validBlock)

/-- Rendering of one input run into an output run: a marked flag is set
(`some true`), an unmarked flag is left unset (`none`). -/
def renderRun (r : SRun) : Run :=
  ⟨r.text, if r.bold then some true else none, if r.italic then some true else none⟩

/-- Rendering of one input table cell: one paragraph holding one run with
the cell's string, bold when the cell's bold flag is set. -/
def renderCell (c : String × Bool) : Cell :=
  ⟨[⟨[⟨c.1, if c.2 then some true else none, none⟩], none⟩]⟩

/-- Rendering of a table block: the declared counts, the rendered grid,
and the builder's table style. -/
def renderTable (rows cols : Nat) (cells : List (List (String × Bool))) : Table :=
  ⟨rows, cols, cells.map (fun row => row.map renderCell), some "Table Grid"⟩

/-- Modelled from the spec: how `build` "emits each `Block` in order
according to its variant (paragraph runs with styling, bullet item, or
fully-populated table with per-cell text and optional bold styling)". -/
def renderBlock : Block → Elem
  | Block.paragraph runs => Elem.par ⟨runs.map renderRun, none⟩
  | Block.bullet text => Elem.par (bulletPar text)
  | Block.table rows cols cells => Elem.table (renderTable rows cols cells)

/-- Modelled from the spec: for one section, `build` "emits a heading at
the section's nesting level, then emits each `Block` in order". -/
def renderSection (s : Sect) : List Elem :=
  Elem.heading s.title s.level none :: s.blocks.map renderBlock

/-- Modelled from the spec: the whole rendered document, "for each
`Section` in order", with no reordering, deduplication or generation. -/
def renderOutline : Outline → Document
  | [] => []
  | s :: rest => renderSection s ++ renderOutline rest

/-- Modelled from the spec's error taxonomy (section 7):
`ConfigurationError` and `IOError`. -/
inductive Err where
  | config
  | io
deriving Repr, DecidableEq

/-- Modelled from the spec: the in-memory phase of
`build(outline, outputPath)` — validity is "detected before any write
begins"; an invalid outline yields `ConfigurationError`, a valid one the
rendered document. -/
def build (o : Outline) : Except Err Document :=
  if validOutline o then Except.ok (renderOutline o) else Except.error Err.config

/-- A file system, mapping each path to the document stored there, if any. -/
def FS : Type := String → Option Document

/-- Modelled from the spec: the whole of `build(outline, outputPath)`
including the final save, against a file system and a writability
predicate. A `ConfigurationError` or an unwritable path returns the error
with the file system untouched (no partial file); success stores the
rendered document at exactly the given path. -/
def buildAndSave (writable : String → Bool) (o : Outline) (path : String) (fs : FS) :
    Except Err Unit × FS :=
  match build o with
  | Except.error e => (Except.error e, fs)
  | Except.ok d =>
      if writable path then
        (Except.ok (), fun q => if q = path then some d else fs q)
      else
        (Except.error Err.io, fs)

/-!
Abstract item sequences, used to state order preservation: one item per
heading or block, extracted independently from the input outline and from
the output document, then compared.
-/

/-- One abstract content item: a heading or one block of content. -/
inductive Item where
  | heading (text : String) (level : Nat)
  | paragraph (runs : List SRun)
  | bullet (text : String)
  | table (rows cols : Nat) (cells : List (List (String × Bool)))
deriving Repr, DecidableEq

/-- The item an input block contributes, read directly off the outline. -/
def blockItem : Block → Item
  | Block.paragraph runs => Item.paragraph runs
  | Block.bullet text => Item.bullet text
  | Block.table rows cols cells => Item.table rows cols cells

/-- The input item sequence of an outline: each section's heading followed
by its blocks, in order. -/
def itemsOfOutline : Outline → List Item
  | [] => []
  | s :: rest =>
      (Item.heading s.title s.level :: s.blocks.map blockItem) ++ itemsOfOutline rest

/-- Whether an output run carries the bold flag set. -/
def boldSet (r : Run) : Bool := r.bold == some true

/-- Whether an output run carries the italic flag set. -/
def italicSet (r : Run) : Bool := r.italic == some true

/-- Reading an input run back off an output run: its text and which style
flags are set. -/
def unrenderRun (r : Run) : SRun := ⟨r.text, boldSet r, italicSet r⟩

/-- Reading an input cell back off an output cell: its text and whether
the first run of its first paragraph is bold. -/
def uncell (c : Cell) : String × Bool :=
  (cellText c,
   match c.paragraphs with
   | p :: _ =>
       match p.runs with
       | r :: _ => boldSet r
       | [] => false
   | [] => false)

/-- The item one output element represents, read off the serialized
document: a bullet paragraph is recognised by its `List Bullet` style. -/
def elemItem : Elem → Item
  | Elem.heading text level _ => Item.heading text level
  | Elem.par p =>
      if p.style = some "List Bullet" then Item.bullet (parText p)
      else Item.paragraph (p.runs.map unrenderRun)
  | Elem.table t => Item.table t.nrows t.ncols (t.cells.map (fun row => row.map uncell))

/-- The item sequence of an output document, read top-to-bottom. -/
def itemsOfDoc (d : Document) : List Item := d.map elemItem

/-- Whether an element is a table without the `Table Grid` style. -/
def tableGridStyled (e : Elem) : Bool :=
  match e with
  | Elem.table t => t.style == some "Table Grid"
  | _ => true

/-- Whether the first run of a cell's first paragraph is bold. -/
def firstRunBoldSet (c : Cell) : Bool :=
  match c.paragraphs with
  | p :: _ =>
      match p.runs with
      | r :: _ => r.bold == some true
      | [] => false
  | [] => false

/-- Whether no run anywhere in a cell carries a bold flag. -/
def cellUnbold (c : Cell) : Bool :=
  c.paragraphs.all fun p => p.runs.all fun r => r.bold == none

/-- The scenario outline from the spec (section 8): a title section and a
section holding one two-run paragraph. -/
def demoOutline : Outline :=
  [⟨"T", 0, []⟩,
   ⟨"S1", 1, [Block.paragraph [⟨"Start date", true, false⟩, ⟨"TBD", false, false⟩]]⟩]

/-- The cell grid of the spec's role/name table scenario. -/
def roleCells : List (List (String × Bool)) :=
  [[("Role", false), ("Name", false)], [("Client", false), ("Benita", false)]]

/-- The spec's role/name table scenario as an outline. -/
def roleOutline : Outline := [⟨"T", 0, [Block.table 2 2 roleCells]⟩]

/-- An outline holding one valid 1 × 2 table block. -/
def tblOutline : Outline := [⟨"T", 0, [Block.table 1 2 [[("a", true), ("b", false)]]]⟩]

/-- An outline whose table block declares 2 × 2 but populates only one row. -/
def badOutline : Outline := [⟨"T", 0, [Block.table 2 2 [[("a", false), ("b", false)]]]⟩]

theorem unrender_render (r : SRun) : unrenderRun (renderRun r) = r := by
  obtain ⟨t, b, i⟩ := r
  cases b <;> cases i <;> rfl

theorem uncell_render (c : String × Bool) : uncell (renderCell c) = c := by
  obtain ⟨s, b⟩ := c
  cases b <;> rfl

theorem elemItem_renderBlock (b : Block) : elemItem (renderBlock b) = blockItem b := by
  cases b with
  | paragraph runs =>
      simp [renderBlock, elemItem, blockItem, List.map_map, Function.comp_def, unrender_render]
  | bullet t => rfl
  | table rows cols cells =>
      simp [renderBlock, elemItem, blockItem, renderTable, List.map_map, Function.comp_def,
        uncell_render]

theorem itemsOfDoc_append (a b : Document) :
    itemsOfDoc (a ++ b) = itemsOfDoc a ++ itemsOfDoc b :=
  List.map_append _ _ _

theorem itemsOfDoc_renderSection (s : Sect) :
    itemsOfDoc (renderSection s) = Item.heading s.title s.level :: s.blocks.map blockItem := by
  show Item.heading s.title s.level :: (s.blocks.map renderBlock).map elemItem = _
  rw [List.map_map]
  congr 1
  exact List.map_congr_left fun b _ => elemItem_renderBlock b

theorem itemsOfDoc_renderOutline : ∀ o : Outline,
    itemsOfDoc (renderOutline o) = itemsOfOutline o
  | [] => rfl
  | s :: rest => by
      show itemsOfDoc (renderSection s ++ renderOutline rest) = _
      rw [itemsOfDoc_append, itemsOfDoc_renderSection, itemsOfDoc_renderOutline rest]
      rfl

theorem build_ok {o : Outline} {d : Document} (h : build o = Except.ok d) :
    validOutline o = true ∧ d = renderOutline o := by
  unfold build at h
  split at h
  · exact ⟨by assumption, (Except.ok.inj h).symm⟩
  · exact Except.noConfusion h

theorem mem_renderOutline {o : Outline} {s : Sect} {e : Elem}
    (hs : s ∈ o) (he : e ∈ renderSection s) : e ∈ renderOutline o := by
  induction o with
  | nil => cases hs
  | cons a rest ih =>
      show e ∈ renderSection a ++ renderOutline rest
      rcases List.mem_cons.mp hs with h | h
      · subst h
        exact List.mem_append.mpr (Or.inl he)
      · exact List.mem_append.mpr (Or.inr (ih h))

theorem valid_block_of_mem {o : Outline} {s : Sect} {b : Block}
    (hv : validOutline o = true) (hs : s ∈ o) (hb : b ∈ s.blocks) : validBlock b = true := by
  unfold validOutline at hv
  rw [Bool.and_eq_true] at hv
  exact List.all_eq_true.mp (List.all_eq_true.mp hv.2 s hs) b hb

theorem valid_table_shape {rows cols : Nat} {cells : List (List (String × Bool))}
    (h : validBlock (Block.table rows cols cells) = true) :
    cells.length = rows ∧ ∀ row ∈ cells, row.length = cols := by
  unfold validBlock at h
  rw [Bool.and_eq_true] at h
  refine ⟨by simpa using h.1, fun row hr => ?_⟩
  simpa using List.all_eq_true.mp h.2 row hr

theorem renderCells_getD : ∀ (cells : List (List (String × Bool))) (i : Nat),
    ((cells.map fun row => row.map renderCell).getD i []) = (cells.getD i []).map renderCell
  | [], _ => rfl
  | _ :: _, 0 => rfl
  | _ :: rs, i + 1 => renderCells_getD rs i

theorem cellText_renderRow : ∀ (row : List (String × Bool)) (j : Nat),
    cellText ((row.map renderCell).getD j emptyCell) = (row.getD j ("", false)).1
  | [], _ => rfl
  | c :: cs, 0 => by
      obtain ⟨s, b⟩ := c
      cases b <;> rfl
  | c :: cs, j + 1 => cellText_renderRow cs j

/-- C1: for every outline the builder accepts, the sequence of headings
and blocks in the output document, read top-to-bottom, equals the input
sequence exactly — no reordering, deduplication or content generation. -/
theorem build_preserves_order_C1 {o : Outline} {d : Document}
    (h : build o = Except.ok d) : itemsOfDoc d = itemsOfOutline o := by
  obtain ⟨hv, hd⟩ := build_ok h
  subst hd
  exact itemsOfDoc_renderOutline o

theorem build_preserves_order_C1_witness :
    itemsOfDoc (renderOutline demoOutline) = itemsOfOutline demoOutline :=
  build_preserves_order_C1 rfl

/-- C2: every table block declared `rows × cols` in an accepted outline is
rendered into the output document with exactly `rows` rows and `cols`
columns, and every declared cell's text is carried over exactly. -/
theorem build_table_shape_C2 {o : Outline} {d : Document} {s : Sect}
    {rows cols : Nat} {cells : List (List (String × Bool))}
    (ho : build o = Except.ok d) (hs : s ∈ o)
    (hb : Block.table rows cols cells ∈ s.blocks) :
    Elem.table (renderTable rows cols cells) ∈ d ∧
    (renderTable rows cols cells).nrows = rows ∧
    (renderTable rows cols cells).ncols = cols ∧
    (renderTable rows cols cells).cells.length = rows ∧
    (∀ row ∈ (renderTable rows cols cells).cells, row.length = cols) ∧
    ∀ i j, i < rows → j < cols →
      cellText (((renderTable rows cols cells).cells.getD i []).getD j emptyCell) =
        ((cells.getD i []).getD j ("", false)).1 := by
  obtain ⟨hv, hd⟩ := build_ok ho
  obtain ⟨hlen, hcols⟩ := valid_table_shape (valid_block_of_mem hv hs hb)
  subst hd
  refine ⟨?_, rfl, rfl, ?_, ?_, ?_⟩
  · exact mem_renderOutline hs (List.mem_cons_of_mem _ (List.mem_map.mpr ⟨_, hb, rfl⟩))
  · simpa [renderTable] using hlen
  · intro row hr
    simp only [renderTable] at hr
    obtain ⟨r0, hr0, rfl⟩ := List.mem_map.mp hr
    simpa using hcols r0 hr0
  · intro i j _ _
    show cellText (((cells.map fun row => row.map renderCell).getD i []).getD j emptyCell) = _
    rw [renderCells_getD, cellText_renderRow]

theorem build_table_shape_C2_witness :
    Elem.table (renderTable 1 2 [[("a", true), ("b", false)]]) ∈ renderOutline tblOutline ∧
    (renderTable 1 2 [[("a", true), ("b", false)]]).cells.length = 1 ∧
    cellText (((renderTable 1 2 [[("a", true), ("b", false)]]).cells.getD 0 []).getD 1
      emptyCell) = "b" := by
  have h := @build_table_shape_C2 tblOutline (renderOutline tblOutline)
    ⟨"T", 0, [Block.table 1 2 [[("a", true), ("b", false)]]]⟩ 1 2
    [[("a", true), ("b", false)]] rfl (by decide) (by decide)
  exact ⟨h.1, h.2.2.2.1, h.2.2.2.2.2 0 1 (by decide) (by decide)⟩

/-- C3: a structurally invalid outline — empty, or holding a table block
whose populated cells do not match its declared bounds — makes the build
fail with `ConfigurationError` before any write, leaving the file system
untouched. -/
theorem invalid_outline_config_error_C3 (w : String → Bool) (o : Outline)
    (path : String) (fs : FS)
    (h : o = [] ∨ ∃ s ∈ o, ∃ rows cols cells, Block.table rows cols cells ∈ s.blocks ∧
      ¬(cells.length = rows ∧ ∀ row ∈ cells, row.length = cols)) :
    (buildAndSave w o path fs).1 = Except.error Err.config ∧
    ∀ q, (buildAndSave w o path fs).2 q = fs q := by
  have hv : validOutline o = false := by
    rcases h with rfl | ⟨s, hs, rows, cols, cells, hb, hbad⟩
    · rfl
    · rcases Bool.eq_false_or_eq_true (validOutline o) with h' | h'
      · exact absurd (valid_table_shape (valid_block_of_mem h' hs hb)) hbad
      · exact h'
  unfold buildAndSave build
  rw [hv]
  exact ⟨rfl, fun q => rfl⟩

theorem invalid_outline_config_error_C3_witness :
    (buildAndSave (fun _ => true) badOutline "out.docx" (fun _ => none)).1 =
      Except.error Err.config ∧
    (buildAndSave (fun _ => true) badOutline "out.docx" (fun _ => none)).2 "out.docx" = none := by
  have h := invalid_outline_config_error_C3 (fun _ => true) badOutline "out.docx" (fun _ => none)
    (Or.inr ⟨⟨"T", 0, [Block.table 2 2 [[("a", false), ("b", false)]]]⟩, by decide, 2, 2,
      [[("a", false), ("b", false)]], by decide, by decide⟩)
  exact ⟨h.1, h.2 "out.docx"⟩

/-- C4: when the output path is not writable, the build of a valid outline
fails with `IOError`, the error propagates as the result with no retry,
and the file system is left untouched — no partial file. -/
theorem unwritable_io_error_C4 (w : String → Bool) (o : Outline) (path : String) (fs : FS)
    (hv : validOutline o = true) (hw : w path = false) :
    (buildAndSave w o path fs).1 = Except.error Err.io ∧
    ∀ q, (buildAndSave w o path fs).2 q = fs q := by
  unfold buildAndSave build
  rw [hv, hw]
  exact ⟨rfl, fun q => rfl⟩

theorem unwritable_io_error_C4_witness :
    (buildAndSave (fun _ => false) demoOutline "out.docx" (fun _ => none)).1 =
      Except.error Err.io ∧
    (buildAndSave (fun _ => false) demoOutline "out.docx" (fun _ => none)).2 "out.docx" = none := by
  have h := unwritable_io_error_C4 (fun _ => false) demoOutline "out.docx" (fun _ => none)
    (by decide) rfl
  exact ⟨h.1, h.2 "out.docx"⟩

/-- C5: the builder is a pure function of its outline — two runs from the
same outline to two different paths, over arbitrary initial file systems,
store the same structural content, namely the rendered outline. -/
theorem build_deterministic_C5 (w1 w2 : String → Bool) (o : Outline) (p1 p2 : String)
    (fs1 fs2 : FS) (hv : validOutline o = true) (h1 : w1 p1 = true) (h2 : w2 p2 = true) :
    (buildAndSave w1 o p1 fs1).2 p1 = (buildAndSave w2 o p2 fs2).2 p2 ∧
    (buildAndSave w1 o p1 fs1).2 p1 = some (renderOutline o) := by
  unfold buildAndSave build
  rw [hv, h1, h2]
  simp

theorem build_deterministic_C5_witness :
    (buildAndSave (fun _ => true) demoOutline "a.docx" (fun _ => none)).2 "a.docx" =
      (buildAndSave (fun _ => true) demoOutline "b.docx" (fun _ => none)).2 "b.docx" :=
  (build_deterministic_C5 (fun _ => true) (fun _ => true) demoOutline "a.docx" "b.docx"
    (fun _ => none) (fun _ => none) (by decide) rfl rfl).1

/-- C6: every run of a paragraph block of an accepted outline is rendered
into the output document, with the bold and italic flags set exactly when
the input run is so marked. -/
theorem run_style_fidelity_C6 {o : Outline} {d : Document} {s : Sect} {runs : List SRun}
    (ho : build o = Except.ok d) (hs : s ∈ o) (hb : Block.paragraph runs ∈ s.blocks) :
    Elem.par ⟨runs.map renderRun, none⟩ ∈ d ∧
    ∀ r ∈ runs, boldSet (renderRun r) = r.bold ∧ italicSet (renderRun r) = r.italic := by
  obtain ⟨hv, hd⟩ := build_ok ho
  subst hd
  refine ⟨mem_renderOutline hs (List.mem_cons_of_mem _ (List.mem_map.mpr ⟨_, hb, rfl⟩)),
    fun r _ => ?_⟩
  obtain ⟨t, b, i⟩ := r
  cases b <;> cases i <;> exact ⟨rfl, rfl⟩

theorem run_style_fidelity_C6_witness :
    Elem.par ⟨[⟨"Start date", true, false⟩, ⟨"TBD", false, false⟩].map renderRun, none⟩
      ∈ renderOutline demoOutline ∧
    boldSet (renderRun ⟨"Start date", true, false⟩) = true ∧
    boldSet (renderRun ⟨"TBD", false, false⟩) = false := by
  have h := @run_style_fidelity_C6 demoOutline (renderOutline demoOutline)
    ⟨"S1", 1, [Block.paragraph [⟨"Start date", true, false⟩, ⟨"TBD", false, false⟩]]⟩
    [⟨"Start date", true, false⟩, ⟨"TBD", false, false⟩] rfl (by decide) (by decide)
  exact ⟨h.1, (h.2 ⟨"Start date", true, false⟩ (by decide)).1,
    (h.2 ⟨"TBD", false, false⟩ (by decide)).1⟩

/-- C7: on success the only file-system change is at the caller's path —
the rendered document is stored there and every other path keeps its
previous content. -/
theorem save_frame_effect_C7 (w : String → Bool) (o : Outline) (path : String) (fs : FS)
    (hv : validOutline o = true) (hw : w path = true) :
    (buildAndSave w o path fs).1 = Except.ok () ∧
    (buildAndSave w o path fs).2 path = some (renderOutline o) ∧
    ∀ q, q ≠ path → (buildAndSave w o path fs).2 q = fs q := by
  unfold buildAndSave build
  rw [hv, hw]
  refine ⟨rfl, by simp, fun q hq => ?_⟩
  simp [hq]

theorem save_frame_effect_C7_witness :
    (buildAndSave (fun _ => true) demoOutline "a.docx" (fun _ => none)).1 = Except.ok () ∧
    (buildAndSave (fun _ => true) demoOutline "a.docx" (fun _ => none)).2 "a.docx" =
      some (renderOutline demoOutline) ∧
    (buildAndSave (fun _ => true) demoOutline "a.docx" (fun _ => none)).2 "b.docx" = none := by
  have h := save_frame_effect_C7 (fun _ => true) demoOutline "a.docx" (fun _ => none)
    (by decide) rfl
  exact ⟨h.1, h.2.1, h.2.2 "b.docx" (by decide)⟩

/-- C8: the spec's role/name scenario — a table block declared 2 × 2 and
populated with Role/Name and Client/Benita builds into a document whose
table has exactly 2 rows and 2 columns with positionally matching text. -/
theorem role_name_table_scenario_C8 :
    build roleOutline =
      Except.ok [Elem.heading "T" 0 none, Elem.table (renderTable 2 2 roleCells)] ∧
    (renderTable 2 2 roleCells).nrows = 2 ∧
    (renderTable 2 2 roleCells).ncols = 2 ∧
    (renderTable 2 2 roleCells).cells.length = 2 ∧
    (renderTable 2 2 roleCells).cells.map List.length = [2, 2] ∧
    cellText (((renderTable 2 2 roleCells).cells.getD 0 []).getD 0 emptyCell) = "Role" ∧
    cellText (((renderTable 2 2 roleCells).cells.getD 0 []).getD 1 emptyCell) = "Name" ∧
    cellText (((renderTable 2 2 roleCells).cells.getD 1 []).getD 0 emptyCell) = "Client" ∧
    cellText (((renderTable 2 2 roleCells).cells.getD 1 []).getD 1 emptyCell) = "Benita" :=
  ⟨rfl, rfl, rfl, rfl, rfl, rfl, rfl, rfl, rfl⟩

/-- C9: every table placed in the document built by `create_document`
carries the `Table Grid` style — none is left with the default style. -/
theorem all_tables_grid_styled_C9 :
    (sowDocument.all tableGridStyled) = true := by decide

/-- C10: in the project-summary table all 7 rows have the first run of
their first-column cell bold, and no run of a second-column value cell is
bold. -/
theorem summary_first_column_bold_C10 :
    summaryTable.cells.length = 7 ∧
    (summaryTable.cells.all fun row =>
      firstRunBoldSet (row.getD 0 emptyCell) && cellUnbold (row.getD 1 emptyCell)) = true :=
  ⟨rfl, by decide⟩
